import Mathlib

/-!
Verification of the cost-accounting module of an AI voice-calling dashboard.

The program is a Flask web application (`web_app.py`).  The parts relevant
here are:

* the module-level price table `PRICING` and exchange rate `USD_TO_INR`;
* `calculate_call_cost(duration_seconds)`, a pure function returning an
  itemized cost breakdown (lines 123-150);
* the `update_call` route, which recomputes the cost fields when a
  duration is supplied and writes them in a single SQL `UPDATE`
  (lines 638-689);
* the `get_costs` route, which aggregates stored cost fields over the
  whole table and over today/week/month windows (lines 692-791).

Real numbers of the source are modelled as rationals; Python's
`round(x, n)` is modelled by `roundTo`.  None of the concrete values in
the claims fall on a rounding tie, so the difference between Python's
tie-breaking rule and the one of `round` on `ℚ` is immaterial for every
statement below.
-/

namespace CallCost

/-- Model of Python `round(x, n)`: round `x` to `n` decimal places. -/
def roundTo (x : ℚ) (n : ℕ) : ℚ := (round (x * 10 ^ n) : ℤ) / 10 ^ n

/-- The keys of the `PRICING` dictionary in `web_app.py`. -/
structure Pricing where
  livekit_sip : ℚ
  deepgram_stt : ℚ
  deepgram_tts : ℚ
  groq_input : ℚ
  groq_output : ℚ
  avg_tokens_per_call : ℚ
  deriving DecidableEq, Repr

/-- `PRICING` constant of `web_app.py` (lines 29-36). -/
def PRICING : Pricing where
  livekit_sip := 10 / 1000
  deepgram_stt := 59 / 10000
  deepgram_tts := 27 / 1000
  groq_input := 59 / 100000000
  groq_output := 79 / 100000000
  avg_tokens_per_call := 2000

/-- `USD_TO_INR` constant of `web_app.py` (line 39). -/
def USD_TO_INR : ℚ := 83

/-- The dictionary returned by `calculate_call_cost`. -/
structure CostBreakdown where
  cost_livekit : ℚ
  cost_stt : ℚ
  cost_tts : ℚ
  cost_llm : ℚ
  total_cost_usd : ℚ
  total_cost_inr : ℚ
  duration_minutes : ℚ
  deriving DecidableEq, Repr

/-- `calculate_call_cost` of `web_app.py` (lines 123-150), embedded over
the fixed module constants `PRICING` and `USD_TO_INR`. -/
def calculate_call_cost (duration_seconds : ℚ) : CostBreakdown :=
  let duration_minutes := duration_seconds / 60
  let cost_livekit := PRICING.livekit_sip * duration_minutes
  let cost_stt := PRICING.deepgram_stt * duration_minutes
  let cost_tts := PRICING.deepgram_tts * duration_minutes
  let avg_tokens := PRICING.avg_tokens_per_call
  let cost_llm := avg_tokens * PRICING.groq_input + avg_tokens * PRICING.groq_output
  let total_usd := cost_livekit + cost_stt + cost_tts + cost_llm
  let total_inr := total_usd * USD_TO_INR
  { cost_livekit := roundTo cost_livekit 6
    cost_stt := roundTo cost_stt 6
    cost_tts := roundTo cost_tts 6
    cost_llm := roundTo cost_llm 6
    total_cost_usd := roundTo total_usd 4
    total_cost_inr := roundTo total_inr 2
    duration_minutes := roundTo duration_minutes 2 }

/-- The keys the body of `calculate_call_cost` reads from the `PRICING`
dictionary, in source order (lines 131-137). -/
inductive PKey where
  | livekit_sip
  | deepgram_stt
  | deepgram_tts
  | avg_tokens_per_call
  | groq_input
  | groq_output
  deriving DecidableEq, Repr

/-- A price table seen as a Python dictionary: a key may be absent. -/
def PriceTable : Type := PKey → Option ℚ

/-- Python dictionary subscript access `table[k]`: raises `KeyError`
(modelled as `Except.error k`) when the key is absent. -/
def dictLookup (t : PriceTable) (k : PKey) : Except PKey ℚ :=
  match t k with
  | some v => Except.ok v
  | none => Except.error k

/-- The full `PRICING` constant as a price table (every key present). -/
def PRICING_table : PriceTable := fun k =>
  match k with
  | PKey.livekit_sip => some PRICING.livekit_sip
  | PKey.deepgram_stt => some PRICING.deepgram_stt
  | PKey.deepgram_tts => some PRICING.deepgram_tts
  | PKey.avg_tokens_per_call => some PRICING.avg_tokens_per_call
  | PKey.groq_input => some PRICING.groq_input
  | PKey.groq_output => some PRICING.groq_output

/-- The body of `calculate_call_cost` with the price table and exchange
rate made explicit parameters, keeping the dictionary-subscript access
pattern of the source: each `PRICING[...]` read is a `dictLookup`, so an
absent key aborts with a `KeyError` exactly as in Python. -/
def calculate_call_cost_with (t : PriceTable) (usd_to_inr : ℚ)
    (duration_seconds : ℚ) : Except PKey CostBreakdown := do
  let duration_minutes := duration_seconds / 60
  let p_livekit ← dictLookup t PKey.livekit_sip
  let cost_livekit := p_livekit * duration_minutes
  let p_stt ← dictLookup t PKey.deepgram_stt
  let cost_stt := p_stt * duration_minutes
  let p_tts ← dictLookup t PKey.deepgram_tts
  let cost_tts := p_tts * duration_minutes
  let avg_tokens ← dictLookup t PKey.avg_tokens_per_call
  let p_in ← dictLookup t PKey.groq_input
  let p_out ← dictLookup t PKey.groq_output
  let cost_llm := avg_tokens * p_in + avg_tokens * p_out
  let total_usd := cost_livekit + cost_stt + cost_tts + cost_llm
  let total_inr := total_usd * usd_to_inr
  Except.ok
    { cost_livekit := roundTo cost_livekit 6
      cost_stt := roundTo cost_stt 6
      cost_tts := roundTo cost_tts 6
      cost_llm := roundTo cost_llm 6
      total_cost_usd := roundTo total_usd 4
      total_cost_inr := roundTo total_inr 2
      duration_minutes := roundTo duration_minutes 2 }

/-- A row of the `calls` table, restricted to the columns `update_call`
and `get_costs` read or write.  Timestamps are rationals. -/
structure CallRecord where
  status : String
  notes : String
  duration : ℚ
  created_at : ℚ
  ended_at : Option ℚ
  cost_livekit : ℚ
  cost_stt : ℚ
  cost_tts : ℚ
  cost_llm : ℚ
  total_cost_usd : ℚ
  total_cost_inr : ℚ
  deriving DecidableEq, Repr

/-- The JSON body of a `PUT /api/calls/<id>` request: each key may be
absent.  `duration` is any JSON number, hence a rational here. -/
structure UpdateData where
  status : Option String
  notes : Option String
  duration : Option ℚ
  deriving DecidableEq, Repr

/-- The three statuses the source treats as terminal (line 678). -/
def terminal_statuses : List String := ["completed", "failed", "no_answer"]

/-- The `update_call` route (lines 638-689).  The source accumulates SQL
`SET` clauses and applies them in one `UPDATE` statement; since the
clauses touch pairwise distinct columns, the resulting row equals this
sequential application.  `now` models `CURRENT_TIMESTAMP`.  The boolean
is the `success` field of the JSON response: every path of the modelled
route returns success (the `except` branch concerns database failures
outside this model, and no statement of the route validates `duration`). -/
def update_call (now : ℚ) (data : UpdateData) (r : CallRecord) :
    CallRecord × Bool :=
  let r1 := match data.status with
    | some s => { r with status := s }
    | none => r
  let r2 := match data.notes with
    | some n => { r1 with notes := n }
    | none => r1
  let r3 := match data.duration with
    | some d =>
      let costs := calculate_call_cost d
      { r2 with
          duration := d
          cost_livekit := costs.cost_livekit
          cost_stt := costs.cost_stt
          cost_tts := costs.cost_tts
          cost_llm := costs.cost_llm
          total_cost_usd := costs.total_cost_usd
          total_cost_inr := costs.total_cost_inr }
    | none => r2
  let r4 := match data.status with
    | some s =>
      if terminal_statuses.contains s then { r3 with ended_at := some now } else r3
    | none => r3
  (r4, true)

/-- Result row of the totals query of `get_costs` (lines 700-710). -/
structure CostsTotals where
  total_livekit : ℚ
  total_stt : ℚ
  total_tts : ℚ
  total_llm : ℚ
  total_usd : ℚ
  total_inr : ℚ
  total_duration : ℚ
  deriving DecidableEq, Repr

/-- SQL `COALESCE(SUM(f), 0)` over a list of rows: the sum, with the
empty case yielding `0` (which is also the value of the empty sum). -/
def sqlSum (rs : List CallRecord) (f : CallRecord → ℚ) : ℚ := (rs.map f).sum

/-- The all-time totals query of `get_costs` (lines 700-710). -/
def totals_query (rs : List CallRecord) : CostsTotals :=
  { total_livekit := sqlSum rs (fun r => r.cost_livekit)
    total_stt := sqlSum rs (fun r => r.cost_stt)
    total_tts := sqlSum rs (fun r => r.cost_tts)
    total_llm := sqlSum rs (fun r => r.cost_llm)
    total_usd := sqlSum rs (fun r => r.total_cost_usd)
    total_inr := sqlSum rs (fun r => r.total_cost_inr)
    total_duration := sqlSum rs (fun r => r.duration) }

/-- Result row of one windowed query of `get_costs` (today / week /
month, lines 714-741): sums of the stored totals over the rows the
window predicate selects, plus the row count. -/
structure WindowRow where
  usd : ℚ
  inr : ℚ
  calls : ℕ
  deriving DecidableEq, Repr

/-- One windowed query of `get_costs`: the window is the `WHERE` clause
on `created_at`, modelled as a boolean predicate on rows. -/
def window_query (w : CallRecord → Bool) (rs : List CallRecord) : WindowRow :=
  let f := rs.filter w
  { usd := sqlSum f (fun r => r.total_cost_usd)
    inr := sqlSum f (fun r => r.total_cost_inr)
    calls := f.length }

/-- The `breakdown` object of the `get_costs` JSON response. -/
structure BreakdownOut where
  livekit_sip : ℚ
  deepgram_stt : ℚ
  deepgram_tts : ℚ
  groq_llm : ℚ
  deriving DecidableEq, Repr

/-- The `totals` object of the `get_costs` JSON response. -/
structure TotalsOut where
  usd : ℚ
  inr : ℚ
  minutes : ℚ
  cost_per_minute_usd : ℚ
  cost_per_minute_inr : ℚ
  deriving DecidableEq, Repr

/-- One of the `today` / `week` / `month` objects of the response. -/
structure WindowOut where
  usd : ℚ
  inr : ℚ
  calls : ℕ
  deriving DecidableEq, Repr

/-- The numeric part of the `costs` object of the response. -/
structure CostsResponse where
  breakdown : BreakdownOut
  totals : TotalsOut
  today : WindowOut
  week : WindowOut
  month : WindowOut
  deriving DecidableEq, Repr

/-- Rounding applied to a window row at response construction. -/
def windowOut (row : WindowRow) : WindowOut :=
  { usd := roundTo row.usd 4, inr := roundTo row.inr 2, calls := row.calls }

/-- The `get_costs` route (lines 692-791): the three window predicates
stand for the three `WHERE` clauses on `created_at`; the database rows
are the list `rs`.  Division by zero is guarded by the two conditionals
of lines 744-745. -/
def get_costs (todayW weekW monthW : CallRecord → Bool)
    (rs : List CallRecord) : CostsResponse :=
  let totals := totals_query rs
  let total_minutes := if totals.total_duration > 0 then totals.total_duration / 60 else 0
  let cost_per_minute := if total_minutes > 0 then totals.total_usd / total_minutes else 0
  { breakdown :=
      { livekit_sip := roundTo totals.total_livekit 4
        deepgram_stt := roundTo totals.total_stt 4
        deepgram_tts := roundTo totals.total_tts 4
        groq_llm := roundTo totals.total_llm 4 }
    totals :=
      { usd := roundTo totals.total_usd 4
        inr := roundTo totals.total_inr 2
        minutes := roundTo total_minutes 2
        cost_per_minute_usd := roundTo cost_per_minute 4
        cost_per_minute_inr := roundTo (cost_per_minute * USD_TO_INR) 2 }
    today := windowOut (window_query todayW rs)
    week := windowOut (window_query weekW rs)
    month := windowOut (window_query monthW rs) }

/-- A concrete row used to instantiate universally quantified statements. -/
def sampleRecord : CallRecord :=
  { status := "in-progress", notes := "", duration := 0, created_at := 10,
    ended_at := none, cost_livekit := 0, cost_stt := 0, cost_tts := 0,
    cost_llm := 0, total_cost_usd := 0, total_cost_inr := 0 }

/-- A row whose end timestamp is already set, for the terminal-update
re-application scenario. -/
def endedRecord : CallRecord :=
  { sampleRecord with status := "completed", ended_at := some 100 }

/-- A price table with every entry present and equal to zero. -/
def tableZeros : PriceTable := fun _ => some 0

/-- The default price table with the transport entry removed. -/
def tableMissingLivekit : PriceTable := fun k =>
  match k with
  | PKey.livekit_sip => none
  | k => PRICING_table k

/-- A stored row with a 4-decimal total of 0.0886 USD. -/
def c9r1 : CallRecord := { sampleRecord with total_cost_usd := 886 / 10 ^ 4 }

/-- A stored row with a 4-decimal total of 0.0443 USD. -/
def c9r2 : CallRecord := { sampleRecord with total_cost_usd := 443 / 10 ^ 4 }

/-- A stored row with a 4-decimal total of 0.1772 USD. -/
def c9r3 : CallRecord := { sampleRecord with total_cost_usd := 1772 / 10 ^ 4 }

/-! ## Helper lemmas about decimal rounding -/

theorem roundTo_zero (n : ℕ) : roundTo 0 n = 0 := by
  simp [roundTo]

theorem abs_roundTo_sub (x : ℚ) (n : ℕ) : |roundTo x n - x| ≤ 1 / 2 / 10 ^ n := by
  have hlt : (0 : ℚ) < 10 ^ n := by positivity
  have h : |x * 10 ^ n - round (x * 10 ^ n)| ≤ 1 / 2 := abs_sub_round _
  have hrepr : roundTo x n - x = ((round (x * 10 ^ n) : ℚ) - x * 10 ^ n) / 10 ^ n := by
    rw [roundTo]
    field_simp
    ring
  rw [abs_sub_comm] at h
  rw [hrepr, abs_div, abs_of_pos hlt]
  exact (div_le_div_iff_of_pos_right hlt).mpr h

theorem roundTo_double (x : ℚ) :
    |roundTo (2 * x) 6 - 2 * roundTo x 6| ≤ 3 / 2 / 10 ^ 6 := by
  have h1 : |roundTo (2 * x) 6 - 2 * x| ≤ 1 / 2 / 10 ^ 6 := abs_roundTo_sub (2 * x) 6
  have h2 : |roundTo x 6 - x| ≤ 1 / 2 / 10 ^ 6 := abs_roundTo_sub x 6
  have hsplit : roundTo (2 * x) 6 - 2 * roundTo x 6 =
      (roundTo (2 * x) 6 - 2 * x) + (2 * x - 2 * roundTo x 6) := by ring
  have h3 : |2 * x - 2 * roundTo x 6| = 2 * |roundTo x 6 - x| := by
    rw [abs_sub_comm, show 2 * roundTo x 6 - 2 * x = 2 * (roundTo x 6 - x) by ring,
      abs_mul]
    norm_num
  calc |roundTo (2 * x) 6 - 2 * roundTo x 6|
      ≤ |roundTo (2 * x) 6 - 2 * x| + |2 * x - 2 * roundTo x 6| := by
        rw [hsplit]; exact abs_add _ _
    _ ≤ 1 / 2 / 10 ^ 6 + 2 * (1 / 2 / 10 ^ 6) := by rw [h3]; gcongr
    _ = 3 / 2 / 10 ^ 6 := by norm_num

theorem roundTo_int_div (z : ℤ) (n : ℕ) :
    roundTo ((z : ℚ) / 10 ^ n) n = (z : ℚ) / 10 ^ n := by
  have hne : ((10 : ℚ)) ^ n ≠ 0 := by positivity
  rw [roundTo, div_mul_cancel₀ _ hne, round_intCast]

theorem roundTo_neg_of_lt (x : ℚ) (n : ℕ) (h : x * 10 ^ n < -(1 / 2)) :
    roundTo x n < 0 := by
  have hlt : (0 : ℚ) < 10 ^ n := by positivity
  have hround : round (x * 10 ^ n) < 0 := by
    rw [round_eq]
    have hx : x * 10 ^ n + 1 / 2 < ((0 : ℤ) : ℚ) := by push_cast; linarith
    exact Int.floor_lt.mpr hx
  have hcast : ((round (x * 10 ^ n) : ℤ) : ℚ) < 0 := by exact_mod_cast hround
  exact div_neg_of_neg_of_pos hcast hlt

/-! ## Claim theorems -/

/-- C1: with the default price table and exchange rate 83, a duration of
120 seconds yields cost_livekit 0.02, cost_stt 0.0118, cost_tts 0.054,
cost_llm 0.00276, total_cost_usd 0.0886 (4 decimals) and total_cost_inr
7.35 (2 decimals). -/
theorem C1_example_cost_breakdown :
    calculate_call_cost 120 =
      { cost_livekit := 2 / 100, cost_stt := 118 / 10000, cost_tts := 54 / 1000,
        cost_llm := 276 / 100000, total_cost_usd := 886 / 10000,
        total_cost_inr := 735 / 100, duration_minutes := 2 } := by
  norm_num [calculate_call_cost, roundTo, round_eq, PRICING, USD_TO_INR,
    CostBreakdown.mk.injEq]

/-- C2 counterexample: at duration 0 the returned total_cost_usd is
0.0028 (the LLM estimator cost rounded to 4 decimals), which differs
from the estimator cost avg_tokens * (input + output) = 0.00276 itself,
so the total does not equal the estimator cost exactly as claimed. -/
theorem C2_total_vs_llm_estimator_counterexample :
    (calculate_call_cost 0).total_cost_usd ≠
      PRICING.avg_tokens_per_call * (PRICING.groq_input + PRICING.groq_output) := by
  norm_num [calculate_call_cost, roundTo, round_eq, PRICING]

/-- C2 amended: at duration 0 every duration-proportional component is
0, the cost_llm field equals the fixed estimator cost
avg_tokens * (input + output) = 0.00276 exactly, and total_cost_usd
equals that estimator cost rounded to 4 decimals, namely 0.0028. -/
theorem C2_zero_duration_llm_only :
    (calculate_call_cost 0).cost_livekit = 0 ∧
    (calculate_call_cost 0).cost_stt = 0 ∧
    (calculate_call_cost 0).cost_tts = 0 ∧
    (calculate_call_cost 0).cost_llm =
      PRICING.avg_tokens_per_call * (PRICING.groq_input + PRICING.groq_output) ∧
    (calculate_call_cost 0).total_cost_usd =
      roundTo (PRICING.avg_tokens_per_call * (PRICING.groq_input + PRICING.groq_output)) 4 ∧
    (calculate_call_cost 0).total_cost_usd = 28 / 10000 := by
  refine ⟨?_, ?_, ?_, ?_, ?_, ?_⟩ <;>
    norm_num [calculate_call_cost, roundTo, round_eq, PRICING]

/-- C5: aggregation over an empty record set is total and yields the
all-zero response: every cost-category sum, duration sum, window sum and
the derived cost-per-minute (division by zero guarded by policy) are 0. -/
theorem C5_empty_aggregation_zero (todayW weekW monthW : CallRecord → Bool) :
    get_costs todayW weekW monthW [] =
      { breakdown := { livekit_sip := 0, deepgram_stt := 0, deepgram_tts := 0, groq_llm := 0 }
        totals := { usd := 0, inr := 0, minutes := 0,
                    cost_per_minute_usd := 0, cost_per_minute_inr := 0 }
        today := { usd := 0, inr := 0, calls := 0 }
        week := { usd := 0, inr := 0, calls := 0 }
        month := { usd := 0, inr := 0, calls := 0 } } := by
  norm_num [get_costs, totals_query, window_query, windowOut, sqlSum, roundTo_zero]

/-- C8: the cost calculator is a pure function of the duration, the
price table and the exchange rate: two invocations with identical
arguments return identical breakdowns in every field (the embedding is
side-effect free by construction, mirroring the source body, which only
reads its argument and the module constants). -/
theorem C8_deterministic (t1 t2 : PriceTable) (rate1 rate2 d1 d2 : ℚ)
    (hd : 0 ≤ d1) (ht : t1 = t2) (hr : rate1 = rate2) (hdur : d1 = d2) :
    calculate_call_cost_with t1 rate1 d1 = calculate_call_cost_with t2 rate2 d2 ∧
    calculate_call_cost d1 = calculate_call_cost d2 := by
  subst ht; subst hr; subst hdur
  exact ⟨rfl, rfl⟩

/-- C8 witness: instantiation at the default table, rate 83 and
duration 120. -/
theorem C8_deterministic_witness :
    (0 : ℚ) ≤ 120 ∧
    (calculate_call_cost_with PRICING_table 83 120 =
        calculate_call_cost_with PRICING_table 83 120 ∧
      calculate_call_cost 120 = calculate_call_cost 120) :=
  ⟨by norm_num,
    C8_deterministic PRICING_table PRICING_table 83 83 120 120 (by norm_num) rfl rfl rfl⟩

/-- Shared helper: an update payload carrying a duration makes the
resulting row store that duration together with the cost calculator
output for it, whatever the other payload keys and the previous row. -/
theorem update_call_cost_fields (now d : ℚ)
    (data : UpdateData) (r : CallRecord) (h : data.duration = some d) :
    ((update_call now data r).1).duration = d ∧
    ((update_call now data r).1).cost_livekit = (calculate_call_cost d).cost_livekit ∧
    ((update_call now data r).1).cost_stt = (calculate_call_cost d).cost_stt ∧
    ((update_call now data r).1).cost_tts = (calculate_call_cost d).cost_tts ∧
    ((update_call now data r).1).cost_llm = (calculate_call_cost d).cost_llm ∧
    ((update_call now data r).1).total_cost_usd = (calculate_call_cost d).total_cost_usd ∧
    ((update_call now data r).1).total_cost_inr = (calculate_call_cost d).total_cost_inr := by
  rcases data with ⟨st, no, du⟩
  simp only at h
  subst h
  rcases st with _ | s <;> rcases no with _ | n <;>
    simp [update_call] <;> split <;> simp

/-- C3: whenever the update payload carries a duration, the updated row
stores that duration together with exactly the six cost fields the cost
calculator returns for it; the write is a single row update, so no state
with the new duration but stale cost fields exists. -/
theorem C3_duration_update_writes_matching_costs (now d : ℚ)
    (data : UpdateData) (r : CallRecord) (h : data.duration = some d) :
    ((update_call now data r).1).duration = d ∧
    ((update_call now data r).1).cost_livekit = (calculate_call_cost d).cost_livekit ∧
    ((update_call now data r).1).cost_stt = (calculate_call_cost d).cost_stt ∧
    ((update_call now data r).1).cost_tts = (calculate_call_cost d).cost_tts ∧
    ((update_call now data r).1).cost_llm = (calculate_call_cost d).cost_llm ∧
    ((update_call now data r).1).total_cost_usd = (calculate_call_cost d).total_cost_usd ∧
    ((update_call now data r).1).total_cost_inr = (calculate_call_cost d).total_cost_inr :=
  update_call_cost_fields now d data r h

/-- C3 witness: instantiation with a completed-status payload carrying
duration 120 on the sample record. -/
theorem C3_duration_update_witness :
    ({ status := some "completed", notes := none,
       duration := some 120 } : UpdateData).duration = some 120 ∧
    (((update_call 200 { status := some "completed", notes := none, duration := some 120 }
        sampleRecord).1).duration = 120 ∧
      ((update_call 200 { status := some "completed", notes := none, duration := some 120 }
          sampleRecord).1).cost_livekit = (calculate_call_cost 120).cost_livekit ∧
      ((update_call 200 { status := some "completed", notes := none, duration := some 120 }
          sampleRecord).1).cost_stt = (calculate_call_cost 120).cost_stt ∧
      ((update_call 200 { status := some "completed", notes := none, duration := some 120 }
          sampleRecord).1).cost_tts = (calculate_call_cost 120).cost_tts ∧
      ((update_call 200 { status := some "completed", notes := none, duration := some 120 }
          sampleRecord).1).cost_llm = (calculate_call_cost 120).cost_llm ∧
      ((update_call 200 { status := some "completed", notes := none, duration := some 120 }
          sampleRecord).1).total_cost_usd = (calculate_call_cost 120).total_cost_usd ∧
      ((update_call 200 { status := some "completed", notes := none, duration := some 120 }
          sampleRecord).1).total_cost_inr = (calculate_call_cost 120).total_cost_inr) :=
  ⟨rfl, C3_duration_update_writes_matching_costs 200 120
    { status := some "completed", notes := none, duration := some 120 } sampleRecord rfl⟩

/-- C4 counterexample: the route sets ended_at to CURRENT_TIMESTAMP
unconditionally whenever the payload status is terminal, so re-applying
a completed status at time 200 to a record whose end timestamp is
already 100 overwrites it with 200. -/
theorem C4_terminal_reapplication_counterexample :
    endedRecord.ended_at = some 100 ∧
    ((update_call 200 { status := some "completed", notes := none, duration := none }
        endedRecord).1).ended_at = some 200 ∧
    ((update_call 200 { status := some "completed", notes := none, duration := none }
        endedRecord).1).ended_at ≠ endedRecord.ended_at := by
  refine ⟨rfl, rfl, ?_⟩
  simp [update_call, endedRecord, sampleRecord, terminal_statuses]

/-- C4 amended: a terminal-status update always writes the current
timestamp into ended_at, whether or not it is already set; a repeated
terminal update therefore replaces an earlier end timestamp with the
time of the later update. -/
theorem C4_terminal_always_stamps (now : ℚ) (data : UpdateData)
    (r : CallRecord) (s : String) (hs : data.status = some s)
    (hterm : terminal_statuses.contains s = true) :
    ((update_call now data r).1).ended_at = some now := by
  rcases data with ⟨st, no, du⟩
  simp only at hs
  subst hs
  have hmem : s ∈ terminal_statuses := by simpa using hterm
  rcases no with _ | n <;> rcases du with _ | d <;>
    simp [update_call, hmem]

/-- C4 amended witness: instantiation re-applying the completed status
at time 200 to the already-ended record. -/
theorem C4_terminal_always_stamps_witness :
    ({ status := some "completed", notes := none,
       duration := none } : UpdateData).status = some "completed" ∧
    terminal_statuses.contains "completed" = true ∧
    ((update_call 200 { status := some "completed", notes := none, duration := none }
        endedRecord).1).ended_at = some 200 :=
  ⟨rfl, rfl, C4_terminal_always_stamps 200
    { status := some "completed", notes := none, duration := none }
    endedRecord "completed" rfl rfl⟩

/-- C6: doubling the duration doubles each duration-proportional
component up to the 6-decimal output rounding: the discrepancy is at
most one and a half units in the sixth decimal place, the worst case of
rounding once at 2d against twice the value rounded at d. -/
theorem C6_double_duration_scaling (d : ℚ) (h : 0 ≤ d) :
    |(calculate_call_cost (2 * d)).cost_livekit -
        2 * (calculate_call_cost d).cost_livekit| ≤ 3 / 2 / 10 ^ 6 ∧
    |(calculate_call_cost (2 * d)).cost_stt -
        2 * (calculate_call_cost d).cost_stt| ≤ 3 / 2 / 10 ^ 6 ∧
    |(calculate_call_cost (2 * d)).cost_tts -
        2 * (calculate_call_cost d).cost_tts| ≤ 3 / 2 / 10 ^ 6 := by
  have key : ∀ p : ℚ,
      |roundTo (p * (2 * d / 60)) 6 - 2 * roundTo (p * (d / 60)) 6| ≤ 3 / 2 / 10 ^ 6 := by
    intro p
    have h2 : p * (2 * d / 60) = 2 * (p * (d / 60)) := by ring
    rw [h2]
    exact roundTo_double (p * (d / 60))
  exact ⟨key PRICING.livekit_sip, key PRICING.deepgram_stt, key PRICING.deepgram_tts⟩

/-- C6 witness: instantiation at duration 50 seconds. -/
theorem C6_double_duration_scaling_witness :
    (0 : ℚ) ≤ 50 ∧
    (|(calculate_call_cost (2 * 50)).cost_livekit -
        2 * (calculate_call_cost 50).cost_livekit| ≤ 3 / 2 / 10 ^ 6 ∧
      |(calculate_call_cost (2 * 50)).cost_stt -
        2 * (calculate_call_cost 50).cost_stt| ≤ 3 / 2 / 10 ^ 6 ∧
      |(calculate_call_cost (2 * 50)).cost_tts -
        2 * (calculate_call_cost 50).cost_tts| ≤ 3 / 2 / 10 ^ 6) :=
  ⟨by norm_num, C6_double_duration_scaling 50 (by norm_num)⟩

/-- C7 counterexample: removing the transport entry from the price table
makes the calculator raise KeyError (dictionary subscript on an absent
key) instead of treating the missing category as contributing 0. -/
theorem C7_missing_entry_counterexample :
    calculate_call_cost_with tableMissingLivekit USD_TO_INR 120 =
      Except.error PKey.livekit_sip := rfl

/-- C7 amended: an entry that is present with value 0 is valid input and
makes its category contribute 0 to the breakdown; when every key is
present the calculator never errors, returning the breakdown built from
the six looked-up prices.  A missing entry, by contrast, raises KeyError
(see the counterexample), so partial pricing configuration works only
through zero-valued entries, not omitted ones. -/
theorem C7_zero_entry_contributes_zero (t : PriceTable) (rate d : ℚ)
    (v1 v2 v3 v4 v5 v6 : ℚ)
    (h1 : t PKey.livekit_sip = some v1) (h2 : t PKey.deepgram_stt = some v2)
    (h3 : t PKey.deepgram_tts = some v3) (h4 : t PKey.avg_tokens_per_call = some v4)
    (h5 : t PKey.groq_input = some v5) (h6 : t PKey.groq_output = some v6) :
    calculate_call_cost_with t rate d = Except.ok
      { cost_livekit := roundTo (v1 * (d / 60)) 6
        cost_stt := roundTo (v2 * (d / 60)) 6
        cost_tts := roundTo (v3 * (d / 60)) 6
        cost_llm := roundTo (v4 * v5 + v4 * v6) 6
        total_cost_usd := roundTo
          (v1 * (d / 60) + v2 * (d / 60) + v3 * (d / 60) + (v4 * v5 + v4 * v6)) 4
        total_cost_inr := roundTo
          ((v1 * (d / 60) + v2 * (d / 60) + v3 * (d / 60) + (v4 * v5 + v4 * v6)) * rate) 2
        duration_minutes := roundTo (d / 60) 2 } ∧
    (v1 = 0 → Except.map CostBreakdown.cost_livekit
      (calculate_call_cost_with t rate d) = Except.ok 0) ∧
    (v2 = 0 → Except.map CostBreakdown.cost_stt
      (calculate_call_cost_with t rate d) = Except.ok 0) ∧
    (v3 = 0 → Except.map CostBreakdown.cost_tts
      (calculate_call_cost_with t rate d) = Except.ok 0) ∧
    (v5 = 0 → v6 = 0 → Except.map CostBreakdown.cost_llm
      (calculate_call_cost_with t rate d) = Except.ok 0) := by
  have hok : calculate_call_cost_with t rate d = Except.ok
      { cost_livekit := roundTo (v1 * (d / 60)) 6
        cost_stt := roundTo (v2 * (d / 60)) 6
        cost_tts := roundTo (v3 * (d / 60)) 6
        cost_llm := roundTo (v4 * v5 + v4 * v6) 6
        total_cost_usd := roundTo
          (v1 * (d / 60) + v2 * (d / 60) + v3 * (d / 60) + (v4 * v5 + v4 * v6)) 4
        total_cost_inr := roundTo
          ((v1 * (d / 60) + v2 * (d / 60) + v3 * (d / 60) + (v4 * v5 + v4 * v6)) * rate) 2
        duration_minutes := roundTo (d / 60) 2 } := by
    simp only [calculate_call_cost_with, dictLookup, h1, h2, h3, h4, h5, h6]
    rfl
  refine ⟨hok, ?_, ?_, ?_, ?_⟩
  · intro hv; subst hv; simp [hok, roundTo_zero, Except.map]
  · intro hv; subst hv; simp [hok, roundTo_zero, Except.map]
  · intro hv; subst hv; simp [hok, roundTo_zero, Except.map]
  · intro hv5 hv6; subst hv5; subst hv6; simp [hok, roundTo_zero, Except.map]

/-- C7 witness: instantiation at the all-zero price table, where the
transport entry is present with value 0 and its category contributes 0. -/
theorem C7_zero_entry_witness :
    tableZeros PKey.livekit_sip = some 0 ∧
    Except.map CostBreakdown.cost_livekit
      (calculate_call_cost_with tableZeros 83 120) = Except.ok 0 :=
  ⟨rfl, (C7_zero_entry_contributes_zero tableZeros 83 120 0 0 0 0 0 0
    rfl rfl rfl rfl rfl rfl).2.1 rfl⟩

/-- C9: when a window selects exactly three rows whose stored totals are
4-decimal values (as every total written by the cost calculator is), the
windowed sum is their exact arithmetic sum, and the 4-decimal rounding
applied at response construction leaves that sum unchanged. -/
theorem C9_three_call_window_sum (w : CallRecord → Bool) (rs : List CallRecord)
    (r1 r2 r3 : CallRecord) (z1 z2 z3 : ℤ)
    (hf : rs.filter w = [r1, r2, r3])
    (h1 : r1.total_cost_usd = (z1 : ℚ) / 10 ^ 4)
    (h2 : r2.total_cost_usd = (z2 : ℚ) / 10 ^ 4)
    (h3 : r3.total_cost_usd = (z3 : ℚ) / 10 ^ 4) :
    (window_query w rs).usd =
      r1.total_cost_usd + r2.total_cost_usd + r3.total_cost_usd ∧
    (windowOut (window_query w rs)).usd =
      r1.total_cost_usd + r2.total_cost_usd + r3.total_cost_usd := by
  have hq : (window_query w rs).usd =
      r1.total_cost_usd + r2.total_cost_usd + r3.total_cost_usd := by
    simp [window_query, sqlSum, hf]
    ring
  refine ⟨hq, ?_⟩
  have hsum : r1.total_cost_usd + r2.total_cost_usd + r3.total_cost_usd =
      ((z1 + z2 + z3 : ℤ) : ℚ) / 10 ^ 4 := by
    rw [h1, h2, h3]; push_cast; ring
  calc (windowOut (window_query w rs)).usd
      = roundTo (window_query w rs).usd 4 := rfl
    _ = roundTo (((z1 + z2 + z3 : ℤ) : ℚ) / 10 ^ 4) 4 := by rw [hq, hsum]
    _ = ((z1 + z2 + z3 : ℤ) : ℚ) / 10 ^ 4 := roundTo_int_div _ _
    _ = r1.total_cost_usd + r2.total_cost_usd + r3.total_cost_usd := hsum.symm

/-- C9 witness: instantiation over three concrete rows with stored
totals 0.0886, 0.0443 and 0.1772 USD selected by the trivial window. -/
theorem C9_three_call_window_sum_witness :
    ([c9r1, c9r2, c9r3].filter (fun _ => true) = [c9r1, c9r2, c9r3]) ∧
    c9r1.total_cost_usd = ((886 : ℤ) : ℚ) / 10 ^ 4 ∧
    c9r2.total_cost_usd = ((443 : ℤ) : ℚ) / 10 ^ 4 ∧
    c9r3.total_cost_usd = ((1772 : ℤ) : ℚ) / 10 ^ 4 ∧
    ((window_query (fun _ => true) [c9r1, c9r2, c9r3]).usd =
        c9r1.total_cost_usd + c9r2.total_cost_usd + c9r3.total_cost_usd ∧
      (windowOut (window_query (fun _ => true) [c9r1, c9r2, c9r3])).usd =
        c9r1.total_cost_usd + c9r2.total_cost_usd + c9r3.total_cost_usd) :=
  ⟨by simp, by norm_num [c9r1, sampleRecord], by norm_num [c9r2, sampleRecord],
    by norm_num [c9r3, sampleRecord],
    C9_three_call_window_sum (fun _ => true) [c9r1, c9r2, c9r3] c9r1 c9r2 c9r3
      886 443 1772 (by simp)
      (by norm_num [c9r1, sampleRecord]) (by norm_num [c9r2, sampleRecord])
      (by norm_num [c9r3, sampleRecord])⟩

/-- C10 counterexample: at duration -0.001 seconds the persisted
duration-proportional components are all exactly 0, not negative: the
6-decimal rounding snaps the tiny negative raw values to 0, so the claim
that negative components are persisted fails for this negative input. -/
theorem C10_tiny_negative_counterexample :
    ((update_call 0 { status := none, notes := none, duration := some (-1 / 1000) }
        sampleRecord).1).duration = -1 / 1000 ∧
    ((update_call 0 { status := none, notes := none, duration := some (-1 / 1000) }
        sampleRecord).1).cost_livekit = 0 ∧
    ((update_call 0 { status := none, notes := none, duration := some (-1 / 1000) }
        sampleRecord).1).cost_stt = 0 ∧
    ((update_call 0 { status := none, notes := none, duration := some (-1 / 1000) }
        sampleRecord).1).cost_tts = 0 ∧
    ¬ ((update_call 0 { status := none, notes := none, duration := some (-1 / 1000) }
        sampleRecord).1).cost_livekit < 0 := by
  refine ⟨?_, ?_, ?_, ?_, ?_⟩ <;>
    norm_num [update_call, calculate_call_cost, roundTo, round_eq, PRICING]

/-- C10 amended: the route performs no validation of the duration: any
payload duration, negative included, reaches the cost calculator and the
results are persisted with a success response; for durations of at most
-1 second the persisted duration-proportional components are strictly
negative, while the fixed LLM estimator cost 0.00276 is persisted
unchanged (durations in (-1, 0) can round to components equal to 0, see
the counterexample). -/
theorem C10_negative_duration_persisted (now d : ℚ) (data : UpdateData)
    (r : CallRecord) (hdur : data.duration = some d) (hneg : d ≤ -1) :
    ((update_call now data r).1).duration = d ∧
    ((update_call now data r).1).cost_livekit < 0 ∧
    ((update_call now data r).1).cost_stt < 0 ∧
    ((update_call now data r).1).cost_tts < 0 ∧
    ((update_call now data r).1).cost_llm = 276 / 100000 ∧
    (update_call now data r).2 = true := by
  obtain ⟨hd, hlk, hstt, htts, hllm, -, -⟩ :=
    update_call_cost_fields now d data r hdur
  refine ⟨hd, ?_, ?_, ?_, ?_, rfl⟩
  · rw [hlk]
    show roundTo (PRICING.livekit_sip * (d / 60)) 6 < 0
    apply roundTo_neg_of_lt
    simp only [PRICING]
    linarith
  · rw [hstt]
    show roundTo (PRICING.deepgram_stt * (d / 60)) 6 < 0
    apply roundTo_neg_of_lt
    simp only [PRICING]
    linarith
  · rw [htts]
    show roundTo (PRICING.deepgram_tts * (d / 60)) 6 < 0
    apply roundTo_neg_of_lt
    simp only [PRICING]
    linarith
  · rw [hllm]
    norm_num [calculate_call_cost, roundTo, round_eq, PRICING]

/-- C10 amended witness: instantiation at duration -60 seconds on the
sample record. -/
theorem C10_negative_duration_witness :
    ({ status := none, notes := none,
       duration := some (-60) } : UpdateData).duration = some (-60) ∧
    (-60 : ℚ) ≤ -1 ∧
    (((update_call 0 { status := none, notes := none, duration := some (-60) }
        sampleRecord).1).duration = -60 ∧
      ((update_call 0 { status := none, notes := none, duration := some (-60) }
        sampleRecord).1).cost_livekit < 0 ∧
      ((update_call 0 { status := none, notes := none, duration := some (-60) }
        sampleRecord).1).cost_stt < 0 ∧
      ((update_call 0 { status := none, notes := none, duration := some (-60) }
        sampleRecord).1).cost_tts < 0 ∧
      ((update_call 0 { status := none, notes := none, duration := some (-60) }
        sampleRecord).1).cost_llm = 276 / 100000 ∧
      (update_call 0 { status := none, notes := none, duration := some (-60) }
        sampleRecord).2 = true) :=
  ⟨rfl, by norm_num, C10_negative_duration_persisted 0 (-60)
    { status := none, notes := none, duration := some (-60) } sampleRecord rfl
    (by norm_num)⟩

end CallCost
